import Mathlib

/-!
Verification of the file-deduplication backend (`kaicong12/file-dedup-rust`).

Shallow embedding of the worker pipeline (`worker/deduplication_service.rs`,
`worker/job_queue.rs`, `worker/worker_process.rs`), the durable job store
(`handlers/jobs.rs`) and the live status channel (`handlers/websocket.rs`),
together with proofs about their behaviour.

Machine integers are modelled as `Nat`/`Int` (reduced mod `2^32` where the
source performs 32-bit arithmetic), `f64` scores as `Rat`, timestamps as `Nat`
(seconds), and fallible operations as `Except String`.
-/

set_option maxRecDepth 100000

namespace FileDedup

/-! ## SHA-256 (the `sha2` crate used by `generate_file_hash`)

A direct executable rendering of FIPS 180-4 SHA-256 over a byte list,
matching `Sha256::new(); hasher.update(bytes); hasher.finalize()` followed by
the `{:x}` lowercase-hex formatting in `deduplication_service.rs`.
-/

/-- Reduce to a 32-bit word. -/
def w32 (x : Nat) : Nat := x % 4294967296

/-- 32-bit right rotation (for `0 < n < 32`, on words `< 2^32`). -/
def rotr32 (n x : Nat) : Nat := w32 ((x >>> n) ||| (x <<< (32 - n)))

/-- SHA-256 `Ch` function. -/
def shaCh (x y z : Nat) : Nat := (x &&& y) ^^^ ((x ^^^ 4294967295) &&& z)

/-- SHA-256 `Maj` function. -/
def shaMaj (x y z : Nat) : Nat := (x &&& y) ^^^ (x &&& z) ^^^ (y &&& z)

/-- SHA-256 `Σ₀`. -/
def bigSigma0 (x : Nat) : Nat := rotr32 2 x ^^^ rotr32 13 x ^^^ rotr32 22 x

/-- SHA-256 `Σ₁`. -/
def bigSigma1 (x : Nat) : Nat := rotr32 6 x ^^^ rotr32 11 x ^^^ rotr32 25 x

/-- SHA-256 `σ₀`. -/
def smallSigma0 (x : Nat) : Nat := rotr32 7 x ^^^ rotr32 18 x ^^^ (x >>> 3)

/-- SHA-256 `σ₁`. -/
def smallSigma1 (x : Nat) : Nat := rotr32 17 x ^^^ rotr32 19 x ^^^ (x >>> 10)

/-- The 64 SHA-256 round constants. -/
def shaK : List Nat :=
  [1116352408, 1899447441, 3049323471, 3921009573, 961987163,
   1508970993, 2453635748, 2870763221, 3624381080, 310598401,
   607225278, 1426881987, 1925078388, 2162078206, 2614888103,
   3248222580, 3835390401, 4022224774, 264347078, 604807628,
   770255983, 1249150122, 1555081692, 1996064986, 2554220882,
   2821834349, 2952996808, 3210313671, 3336571891, 3584528711,
   113926993, 338241895, 666307205, 773529912, 1294757372,
   1396182291, 1695183700, 1986661051, 2177026350, 2456956037,
   2730485921, 2820302411, 3259730800, 3345764771, 3516065817,
   3600352804, 4094571909, 275423344, 430227734, 506948616,
   659060556, 883997877, 958139571, 1322822218, 1537002063,
   1747873779, 1955562222, 2024104815, 2227730452, 2361852424,
   2428436474, 2756734187, 3204031479, 3329325298]

/-- Initial SHA-256 hash state. -/
def shaH0 : List Nat :=
  [1779033703, 3144134277, 1013904242, 2773480762,
   1359893119, 2600822924, 528734635, 1541459225]

/-- Append the FIPS 180-4 padding: `0x80`, zeros, then the 64-bit big-endian
bit length, so that the total length is a multiple of 64 bytes. -/
def sha256Pad (msg : List Nat) : List Nat :=
  let len := msg.length
  let zeros := (64 + 56 - (len + 1) % 64) % 64
  let bitLen := 8 * len
  msg ++ [128] ++ List.replicate zeros 0 ++
    [bitLen / 72057594037927936 % 256,
     bitLen / 281474976710656 % 256,
     bitLen / 1099511627776 % 256,
     bitLen / 4294967296 % 256,
     bitLen / 16777216 % 256,
     bitLen / 65536 % 256,
     bitLen / 256 % 256,
     bitLen % 256]

/-- Split a byte list into 64-byte blocks (fuel-recursive so that it reduces;
the fuel `l.length` bounds the number of blocks). -/
def chunks64Aux : Nat → List Nat → List (List Nat)
  | 0, _ => []
  | _, [] => []
  | fuel + 1, l => l.take 64 :: chunks64Aux fuel (l.drop 64)

/-- Split a byte list into 64-byte blocks. -/
def chunks64 (l : List Nat) : List (List Nat) := chunks64Aux l.length l

/-- Combine bytes into big-endian 32-bit words (16 words per block). -/
def bytesToWords : List Nat → List Nat
  | b0 :: b1 :: b2 :: b3 :: rest =>
      (b0 * 16777216 + b1 * 65536 + b2 * 256 + b3) :: bytesToWords rest
  | _ => []

/-- One message-schedule extension step: append `W[i]` for `i = size`. -/
def scheduleStep (w : Array Nat) : Array Nat :=
  let i := w.size
  w.push (w32 (smallSigma1 (w.getD (i - 2) 0) + w.getD (i - 7) 0 +
    smallSigma0 (w.getD (i - 15) 0) + w.getD (i - 16) 0))

/-- The 64-word message schedule of a block. -/
def schedule (w16 : List Nat) : Array Nat :=
  (List.range 48).foldl (fun w _ => scheduleStep w) w16.toArray

/-- The eight 32-bit working registers of the compression loop. -/
structure Sha256Regs where
  a : Nat
  b : Nat
  c : Nat
  d : Nat
  e : Nat
  f : Nat
  g : Nat
  h : Nat

/-- One round of the SHA-256 compression function. -/
def compressStep (r : Sha256Regs) (kw : Nat × Nat) : Sha256Regs :=
  let t1 := w32 (r.h + bigSigma1 r.e + shaCh r.e r.f r.g + kw.1 + kw.2)
  let t2 := w32 (bigSigma0 r.a + shaMaj r.a r.b r.c)
  ⟨w32 (t1 + t2), r.a, r.b, r.c, w32 (r.d + t1), r.e, r.f, r.g⟩

/-- Process one 64-byte block, updating the intermediate hash value. -/
def processBlock (hs : List Nat) (block : List Nat) : List Nat :=
  let ws := schedule (bytesToWords block)
  let r0 : Sha256Regs :=
    ⟨hs.getD 0 0, hs.getD 1 0, hs.getD 2 0, hs.getD 3 0,
     hs.getD 4 0, hs.getD 5 0, hs.getD 6 0, hs.getD 7 0⟩
  let r := (shaK.zip ws.toList).foldl compressStep r0
  [w32 (hs.getD 0 0 + r.a), w32 (hs.getD 1 0 + r.b),
   w32 (hs.getD 2 0 + r.c), w32 (hs.getD 3 0 + r.d),
   w32 (hs.getD 4 0 + r.e), w32 (hs.getD 5 0 + r.f),
   w32 (hs.getD 6 0 + r.g), w32 (hs.getD 7 0 + r.h)]

/-- Big-endian bytes of a 32-bit word. -/
def wordBytes (w : Nat) : List Nat :=
  [w / 16777216 % 256, w / 65536 % 256, w / 256 % 256, w % 256]

/-- SHA-256 digest (32 bytes) of a byte list. -/
def sha256 (msg : List Nat) : List Nat :=
  (((chunks64 (sha256Pad msg)).foldl processBlock shaH0).map wordBytes).flatten

/-- Lowercase hex digit for a value `< 16`. -/
def hexDigit (n : Nat) : Char :=
  if n < 10 then Char.ofNat (48 + n) else Char.ofNat (87 + n)

/-- Two lowercase hex digits of a byte. -/
def hexPair (b : Nat) : List Char := [hexDigit (b / 16), hexDigit (b % 16)]

/-- Lowercase hex encoding of a byte list, as produced by `format!("{:x}", …)`. -/
def hexOfBytes (bs : List Nat) : String := String.mk ((bs.map hexPair).flatten)

/-- UTF-8 encoding of a character (the bytes `str::as_bytes` exposes). -/
def utf8EncChar (c : Char) : List Nat :=
  let n := c.toNat
  if n < 128 then [n]
  else if n < 2048 then [192 + n / 64, 128 + n % 64]
  else if n < 65536 then [224 + n / 4096, 128 + n / 64 % 64, 128 + n % 64]
  else [240 + n / 262144, 128 + n / 4096 % 64, 128 + n / 64 % 64, 128 + n % 64]

/-- UTF-8 bytes of a string. -/
def utf8Bytes (s : String) : List Nat := (s.data.map utf8EncChar).flatten

/-- Lowercase-hex SHA-256 of a string's UTF-8 bytes. -/
def sha256Hex (s : String) : String := hexOfBytes (sha256 (utf8Bytes s))

example : sha256Hex "abc" =
    "ba7816bf8f01cfea414140de5dae2223b00361a396177a9cb410ff61f20015ad" := by
  decide

example : sha256Hex "" =
    "e3b0c44298fc1c149afbf4c8996fb92427ae41e4649b934ca495991b7852b855" := by
  decide

/-! ## Job queue and transient status (`worker/job_queue.rs`)

Redis is modelled as a FIFO list (`lpush` at the head, `brpop` from the tail)
plus an association list for the `job_status:{job_id}` keys.
-/

/-- The payload serialized into the `deduplication_jobs` list
(`DeduplicationJob` in `job_queue.rs`). -/
structure DeduplicationJob where
  job_id : String
  file_id : Int
  file_name : String
  file_path : String
  s3_key : String
  created_at : Nat
deriving DecidableEq

/-- The transient per-job status record (`JobStatus` in `job_queue.rs`). -/
structure JobStatus where
  job_id : String
  status : String
  created_at : Nat
  updated_at : Nat
  error_message : Option String
deriving DecidableEq

/-- The Redis state owned by `JobQueue`. -/
structure RedisState where
  queue : List DeduplicationJob
  statusMap : List (String × JobStatus)
deriving DecidableEq

/-- The Redis key `job_status:{job_id}`. -/
def statusKey (jobId : String) : String := "job_status:" ++ jobId

/-- `conn.get(&status_key)` on the status map. -/
def lookupStatus (m : List (String × JobStatus)) (k : String) : Option JobStatus :=
  (m.find? (fun p => p.1 == k)).map Prod.snd

/-- `conn.set(&status_key, …)`: overwrite the binding for a key. -/
def setStatusEntry (m : List (String × JobStatus)) (k : String) (v : JobStatus) :
    List (String × JobStatus) :=
  (k, v) :: m.filter (fun p => p.1 ≠ k)

/-- `JobQueue::update_job_status`: preserve the prior record's `created_at`
when one exists, else stamp the current time; always stamp `updated_at`. -/
def updateJobStatus (r : RedisState) (jobId status : String) (err : Option String)
    (now : Nat) : RedisState :=
  let created :=
    match lookupStatus r.statusMap (statusKey jobId) with
    | some current => current.created_at
    | none => now
  { r with statusMap :=
      setStatusEntry r.statusMap (statusKey jobId) ⟨jobId, status, created, now, err⟩ }

/-- `JobQueue::enqueue_deduplication_job`: `lpush` the payload, then store the
transient status as `pending`; returns the job id. -/
def enqueueDeduplicationJob (r : RedisState) (job : DeduplicationJob) (now : Nat) :
    RedisState × String :=
  let r1 : RedisState := { r with queue := job :: r.queue }
  (updateJobStatus r1 job.job_id "pending" none now, job.job_id)

/-- `JobQueue::dequeue_job`: `brpop` the tail of the list; on success set the
transient status to `processing` before returning the payload. -/
def dequeueJob (r : RedisState) (now : Nat) : Option DeduplicationJob × RedisState :=
  match r.queue.getLast? with
  | none => (none, r)
  | some job =>
    let r1 : RedisState := { r with queue := r.queue.dropLast }
    (some job, updateJobStatus r1 job.job_id "processing" none now)

/-! ## Durable job records (`handlers/jobs.rs`) -/

/-- A row of the relational `jobs` table. -/
structure JobRow where
  job_id : String
  file_id : Int
  file_name : String
  file_path : Option String
  s3_key : String
  status : String
  error_message : Option String
  created_at : Nat
  updated_at : Nat
  completed_at : Option Nat
deriving DecidableEq

/-- `create_job_record`: `INSERT … VALUES (…, 'pending')`; `created_at` and
`updated_at` take the store's clock default, `completed_at` has no default and
is null. -/
def createJobRecord (t : List JobRow) (jobId : String) (fileId : Int)
    (fileName : String) (filePath : Option String) (s3Key : String) (now : Nat) :
    List JobRow :=
  t ++ [⟨jobId, fileId, fileName, filePath, s3Key, "pending", none, now, now, none⟩]

/-- `update_job_status_in_db`: stamp `completed_at = now()` iff the new status
is `completed` or `failed`, else write null; always stamp `updated_at`. -/
def updateJobStatusInDb (t : List JobRow) (jobId status : String)
    (err : Option String) (now : Nat) : List JobRow :=
  let completedAt := if status = "completed" ∨ status = "failed" then some now else none
  t.map fun r =>
    if r.job_id = jobId then
      { r with status := status, error_message := err, updated_at := now,
               completed_at := completedAt }
    else r

/-- The effective limit of `get_jobs`: `query.limit.unwrap_or(50).min(100)`. -/
def effectiveLimit (l : Option Int) : Int := min (l.getD 50) 100

/-- The effective offset of `get_jobs`: `query.offset.unwrap_or(0)` (no
clamping). -/
def effectiveOffset (o : Option Int) : Int := o.getD 0

/-- Newest-first comparison on `created_at` (`ORDER BY created_at DESC`). -/
def newestFirst (a b : JobRow) : Prop := b.created_at ≤ a.created_at

instance : DecidableRel newestFirst := fun a b => Nat.decLe _ _

/-- `GET /jobs`: filter by optional status, order newest-first, then apply
`LIMIT`/`OFFSET`. PostgreSQL rejects a negative `LIMIT` or `OFFSET`, which the
handler surfaces as a 500. -/
def runGetJobs (t : List JobRow) (qstatus : Option String)
    (qlimit qoffset : Option Int) : Except String (List JobRow) :=
  let limit := effectiveLimit qlimit
  let offset := effectiveOffset qoffset
  if limit < 0 ∨ offset < 0 then
    .error "OFFSET must not be negative"
  else
    let base :=
      match qstatus with
      | some st => t.filter (fun r => r.status == st)
      | none => t
    .ok (((List.insertionSort newestFirst base).drop offset.toNat).take limit.toNat)

/-- An operation on the durable `jobs` table: an insert by `create_job_record`
or a status write by `update_job_status_in_db`. -/
inductive JobStoreOp where
  | create (jobId : String) (fileId : Int) (fileName : String)
      (filePath : Option String) (s3Key : String) (now : Nat)
  | setStatus (jobId status : String) (err : Option String) (now : Nat)

/-- Apply one durable-store operation. -/
def applyJobStoreOp (t : List JobRow) : JobStoreOp → List JobRow
  | .create j f n p k now => createJobRecord t j f n p k now
  | .setStatus j st e now => updateJobStatusInDb t j st e now

/-- Apply a sequence of durable-store operations. -/
def applyJobStoreOps (t : List JobRow) (ops : List JobStoreOp) : List JobRow :=
  ops.foldl applyJobStoreOp t

/-- The `completed_at` invariant of a durable job row: the timestamp is
present exactly when the status is terminal. -/
def jobRowInv (r : JobRow) : Prop :=
  r.completed_at.isSome = true ↔ (r.status = "completed" ∨ r.status = "failed")

/-! ## Live status channel (`handlers/websocket.rs`) -/

/-- A new session's subscription set (`subscriptions: Vec::new()`). -/
def newSessionSubs : List String := []

/-- The `Subscribe` branch of the `StreamHandler`: push the job id only if it
is not already present. -/
def handleSubscribe (subs : List String) (jobId : String) : List String :=
  if jobId ∈ subs then subs else subs ++ [jobId]

/-- The `Unsubscribe` branch: `retain(|id| id != &job_id)`. -/
def handleUnsubscribe (subs : List String) (jobId : String) : List String :=
  subs.filter (fun i => i ≠ jobId)

/-! ## Relational file/cluster state and the engine
(`worker/deduplication_service.rs`) -/

/-- A row of the `File` table (the columns the worker touches). -/
structure FileRow where
  file_id : Int
  file_name : String
  sha256_hash : String
  cluster_id : Option Int
deriving DecidableEq

/-- A row of the `Cluster` table. -/
structure ClusterRow where
  cluster_id : Int
  intra_similarity_score : Rat
deriving DecidableEq

/-- The relational store: `File` rows, `Cluster` rows (with the sequence
backing `cluster_id`), and the durable `jobs` table. -/
structure Db where
  files : List FileRow
  clusters : List ClusterRow
  nextClusterId : Int
  jobs : List JobRow
deriving DecidableEq

/-- A similar-search result (`SimilarFile`). -/
structure SimilarFile where
  file_id : Int
  file_name : String
  sha256_hash : String
  similarity_score : Rat
deriving DecidableEq

/-- The engine's result (`DeduplicationResult`). -/
structure DeduplicationResult where
  file_id : Int
  sha256_hash : String
  exact_duplicates : List Int
  similar_files : List SimilarFile
  cluster_id : Option Int
deriving DecidableEq

/-- `get_file_info`: `SELECT file_name FROM File WHERE file_id = $1`,
`fetch_one` (error when absent); file size is hard-coded to 0. -/
def getFileInfo (db : Db) (fileId : Int) : Except String (String × Int) :=
  match db.files.find? (fun r => r.file_id == fileId) with
  | some r => .ok (r.file_name, 0)
  | none => .error "no rows returned by a query that expected to return at least one row"

/-- `generate_file_hash`: SHA-256 over the bytes of the S3 key string itself
(`hasher.update(s3_key.as_bytes())`), formatted as lowercase hex. -/
def generateFileHash (s3Key : String) : String := sha256Hex s3Key

/-- `find_exact_duplicates`:
`SELECT file_id FROM File WHERE sha256_hash = $1 AND file_id != $2`. -/
def findExactDuplicates (db : Db) (hash : String) (excludeFileId : Int) : List Int :=
  (db.files.filter fun r =>
    decide (r.sha256_hash = hash ∧ r.file_id ≠ excludeFileId)).map (·.file_id)

/-- The image extension set in `is_image_file`. -/
def imageExtensions : List String := ["jpg", "jpeg", "png", "gif", "bmp", "webp", "tiff"]

/-- The characters after the last `'.'` — `file_name.split('.').last()`, which
is the whole name when no dot occurs. -/
def lastDotSegment (cs : List Char) : List Char :=
  cs.foldl (fun acc c => if c = '.' then [] else acc ++ [c]) []

/-- `is_image_file`: lowercase the last dot-segment and test membership in the
image extension set. -/
def isImageFile (fileName : String) : Bool :=
  imageExtensions.contains (String.mk ((lastDotSegment fileName.data).map Char.toLower))

/-- `get_opensearch_index`: the media class picks the index. -/
def getOpensearchIndex (fileName : String) : String :=
  if isImageFile fileName then "image-embeddings" else "file-embeddings"

/-- One response of the Bedrock embedding provider (an external collaborator):
either an embedding vector or an error string. -/
def EmbedWorld : Type := List (Except String (List Rat))

/-- One call to `Deduplicator::generate_embeddings`: consume the next provider
response. The environment is a queue of responses so that the number of calls
the engine makes is observable. -/
def bedrockCall (world : EmbedWorld) (_input : String) :
    Except String (List Rat) × EmbedWorld :=
  match world with
  | [] => (.error "no response from provider", [])
  | r :: rest => (r, rest)

/-- `generate_file_embeddings`: for an image, embed the base64 placeholder
derived from the S3 key; otherwise embed the file name. Exactly one provider
call is made; its error is wrapped with the media-class message. -/
def generateFileEmbeddings (world : EmbedWorld) (s3Key fileName : String) :
    Except String (List Rat) × EmbedWorld :=
  if isImageFile fileName then
    let base64Content := "placeholder_base64_for_" ++ s3Key
    let (r, w1) := bedrockCall world base64Content
    (match r with
     | .ok v => .ok v
     | .error e => .error ("Failed to generate image embeddings: " ++ e), w1)
  else
    let (r, w1) := bedrockCall world fileName
    (match r with
     | .ok v => .ok v
     | .error e => .error ("Failed to generate text embeddings: " ++ e), w1)

/-- A document stored in an OpenSearch index. -/
structure OsDoc where
  file_id : Int
  file_name : String
  sha256_hash : String
  embedding : List Rat
  created_at : Nat
deriving DecidableEq

/-- `store_embeddings_in_opensearch`: `PUT {index}/_doc/{file_id}` — an upsert
keyed by `(index, file_id)`. -/
def storeEmbeddingsInOpensearch (os : List (String × OsDoc)) (fileId : Int)
    (fileName hash : String) (emb : List Rat) (now : Nat) : List (String × OsDoc) :=
  let indexName := getOpensearchIndex fileName
  (indexName, ⟨fileId, fileName, hash, emb, now⟩) ::
    os.filter (fun p => decide (¬(p.1 = indexName ∧ p.2.file_id = fileId)))

/-- One k-NN hit as parsed from the search response. -/
structure OsHit where
  score : Rat
  file_id : Int
  file_name : String
  sha256_hash : String
deriving DecidableEq

/-- One response of the OpenSearch `_search` call: a hit list, or a non-2xx
HTTP status (which `find_similar_files` logs and treats as no results). -/
inductive SearchResp where
  | hits (l : List OsHit)
  | httpFailure
deriving DecidableEq

/-- The queue of search responses the index returns. -/
def SearchWorld : Type := List SearchResp

/-- `find_similar_files`: issue one `_search`, keep only hits with
`score > 0.8`, and map them to `SimilarFile` records. A failed HTTP status
yields the empty list. -/
def findSimilarFiles (world : SearchWorld) (_emb : List Rat)
    (_excludeFileId : Int) (_fileName : String) : List SimilarFile × SearchWorld :=
  match world with
  | [] => ([], [])
  | .httpFailure :: rest => ([], rest)
  | .hits l :: rest =>
    ((l.filter (fun hit => decide ((4 : Rat) / 5 < hit.score))).map
      (fun hit => ⟨hit.file_id, hit.file_name, hit.sha256_hash, hit.score⟩), rest)

/-- The scan for `cluster_id` of one similar file:
`SELECT cluster_id FROM File WHERE file_id = $1 AND cluster_id IS NOT NULL`. -/
def lookupNonNullCluster (db : Db) (fileId : Int) : Option Int :=
  match db.files.find? (fun r => decide (r.file_id = fileId ∧ r.cluster_id ≠ none)) with
  | some r => r.cluster_id
  | none => none

/-- The loop over the similar files: the first one that already sits in a
cluster wins (`break`). -/
def firstExistingCluster (db : Db) : List SimilarFile → Option Int
  | [] => none
  | sf :: rest =>
    match lookupNonNullCluster db sf.file_id with
    | some c => some c
    | none => firstExistingCluster db rest

/-- `UPDATE File SET cluster_id = $1 WHERE file_id = $2`. -/
def setFileCluster (db : Db) (fileId clusterId : Int) : Db :=
  { db with files := db.files.map fun r =>
      if r.file_id = fileId then { r with cluster_id := some clusterId } else r }

/-- `INSERT INTO Cluster (intra_similarity_score) VALUES (0.9) RETURNING
cluster_id`. -/
def insertCluster (db : Db) : Db × Int :=
  ({ db with clusters := db.clusters ++ [⟨db.nextClusterId, 9 / 10⟩],
             nextClusterId := db.nextClusterId + 1 }, db.nextClusterId)

/-- `update_file_clusters`: no cluster when both match lists are empty; else
adopt the first existing cluster among the similar files or create a new one,
then write it on the current file and every similar file. -/
def updateFileClusters (db : Db) (fileId : Int) (exactDuplicates : List Int)
    (similarFiles : List SimilarFile) : Db × Option Int :=
  if exactDuplicates = [] ∧ similarFiles = [] then (db, none)
  else
    let (db1, clusterId) :=
      match firstExistingCluster db similarFiles with
      | some c => (db, c)
      | none => insertCluster db
    let db2 := setFileCluster db1 fileId clusterId
    let db3 := similarFiles.foldl (fun d sf => setFileCluster d sf.file_id clusterId) db2
    (db3, some clusterId)

/-- `UPDATE File SET sha256_hash = $1 WHERE file_id = $2`. -/
def updateFileHash (db : Db) (fileId : Int) (hash : String) : Db :=
  { db with files := db.files.map fun r =>
      if r.file_id = fileId then { r with sha256_hash := hash } else r }

/-- The state the engine reads and writes: the relational store, the vector
index, and the response queues of the two external collaborators. -/
structure EngineState where
  db : Db
  os : List (String × OsDoc)
  embedWorld : EmbedWorld
  searchWorld : SearchWorld

/-- `perform_deduplication`: the fail-fast pipeline of
`deduplication_service.rs` (metadata read, key digest, exact-match query,
embed, index upsert, similar search, cluster update, digest write). -/
def performDeduplication (s : EngineState) (now : Nat) (job : DeduplicationJob) :
    Except String DeduplicationResult × EngineState :=
  match getFileInfo s.db job.file_id with
  | .error e => (.error e, s)
  | .ok _ =>
    let hash := generateFileHash job.s3_key
    let exactDuplicates := findExactDuplicates s.db hash job.file_id
    let (embRes, ew1) := generateFileEmbeddings s.embedWorld job.s3_key job.file_name
    match embRes with
    | .error e => (.error e, { s with embedWorld := ew1 })
    | .ok emb =>
      let os1 := storeEmbeddingsInOpensearch s.os job.file_id job.file_name hash emb now
      let (similarFiles, sw1) := findSimilarFiles s.searchWorld emb job.file_id job.file_name
      let (db1, clusterId) := updateFileClusters s.db job.file_id exactDuplicates similarFiles
      let db2 := updateFileHash db1 job.file_id hash
      (.ok ⟨job.file_id, hash, exactDuplicates, similarFiles, clusterId⟩,
       { db := db2, os := os1, embedWorld := ew1, searchWorld := sw1 })

/-! ## Worker process (`worker/worker_process.rs`) and the full system -/

/-- The whole system: relational store, Redis, vector index, external response
queues, the log of WebSocket broadcasts, and the clock. -/
structure SysState where
  db : Db
  redis : RedisState
  os : List (String × OsDoc)
  embedWorld : EmbedWorld
  searchWorld : SearchWorld
  broadcasts : List (String × JobStatus)
  now : Nat

/-- The engine-visible projection of the system. -/
def SysState.engine (s : SysState) : EngineState :=
  ⟨s.db, s.os, s.embedWorld, s.searchWorld⟩

/-- `DeduplicationService::process_deduplication_job`: run the pipeline, then
record the terminal outcome — in the transient queue status only
(`self.job_queue.update_job_status`): `completed` on success, `failed` with
the error text on failure. -/
def processDeduplicationJob (s : SysState) (job : DeduplicationJob) :
    Except String Unit × SysState :=
  let (res, e1) := performDeduplication s.engine s.now job
  let s1 : SysState := { s with db := e1.db, os := e1.os,
                                embedWorld := e1.embedWorld, searchWorld := e1.searchWorld }
  match res with
  | .ok _ =>
    (.ok (), { s1 with redis := updateJobStatus s1.redis job.job_id "completed" none s1.now })
  | .error e =>
    (.error e, { s1 with redis := updateJobStatus s1.redis job.job_id "failed" (some e) s1.now })

/-- Modelled from the spec: `DeduplicationService::update_job_status` (and the
`set_connection_manager` wiring) is called by `WorkerProcess::start` but is
missing from the source tree. Per §4.7/§4.8 of the spec the call updates the
transient status in the queue service and broadcasts the transition to every
active WebSocket session (`ConnectionManager::broadcast_job_update`); the
broadcast is recorded in the event log. -/
def serviceUpdateJobStatus (s : SysState) (jobId status : String)
    (err : Option String) : SysState :=
  let redis1 := updateJobStatus s.redis jobId status err s.now
  match lookupStatus redis1.statusMap (statusKey jobId) with
  | some st => { s with redis := redis1, broadcasts := s.broadcasts ++ [(jobId, st)] }
  | none => { s with redis := redis1 }

/-- One iteration of `WorkerProcess::start` with work available: dequeue
(which stamps the transient `processing`), update the status to `processing`
through the service (broadcasting it), then process the job; a processing
error is only logged. -/
def workerStep (s : SysState) : SysState :=
  match dequeueJob s.redis s.now with
  | (none, r1) => { s with redis := r1 }
  | (some job, r1) =>
    let s1 := serviceUpdateJobStatus { s with redis := r1 } job.job_id "processing" none
    (processDeduplicationJob s1 job).2

/-! ## The object store collaborator and concrete scenarios -/

/-- The S3 collaborator: object key to stored bytes. The engine never reads
it — `generate_file_hash` receives only the key — which is exactly what the
digest claims are about. -/
def ObjectStore : Type := List (String × List Nat)

/-- The bytes stored under a key. -/
def objectBytes (store : ObjectStore) (key : String) : Option (List Nat) :=
  (store.find? (fun p => p.1 == key)).map Prod.snd

/-- Two jobs listed newest-first test data: an older row… -/
def c7Row1 : JobRow := ⟨"j1", 1, "a.txt", none, "k1", "pending", none, 1, 1, none⟩

/-- …and a newer row. -/
def c7Row2 : JobRow := ⟨"j2", 2, "b.txt", none, "k2", "completed", none, 2, 2, some 3⟩

/-- A two-row `jobs` table, oldest first. -/
def c7Table : List JobRow := [c7Row1, c7Row2]

/-- Scenario: two objects with identical contents under distinct keys. -/
def c4Store : ObjectStore := [("k1", [104, 105]), ("k2", [104, 105])]

/-- Two file rows awaiting processing (empty digest sentinel). -/
def c4Db : Db := ⟨[⟨1, "a.txt", "", none⟩, ⟨2, "b.txt", "", none⟩], [], 1, []⟩

/-- The job for the first file. -/
def c4Job1 : DeduplicationJob := ⟨"j1", 1, "a.txt", "/tmp/a.txt", "k1", 0⟩

/-- The job for the second file. -/
def c4Job2 : DeduplicationJob := ⟨"j2", 2, "b.txt", "/tmp/b.txt", "k2", 0⟩

/-- Engine state for the sequential runs: the provider answers both embed
calls, and both similar searches return no hits. -/
def c4State : EngineState := ⟨c4Db, [], [.ok [1], .ok [1]], [.hits [], .hits []]⟩

/-- First sequential run. -/
def c4Run1 : Except String DeduplicationResult × EngineState :=
  performDeduplication c4State 10 c4Job1

/-- Second sequential run, on the state the first run left. -/
def c4Run2 : Except String DeduplicationResult × EngineState :=
  performDeduplication c4Run1.2 11 c4Job2

/-- The second run's result record. -/
def c4Res2 : DeduplicationResult := c4Run2.1.toOption.getD ⟨0, "", [], [], none⟩

/-- Parametric sequential scenario: the two-file store before processing. -/
def seqDb0 (n1 n2 : String) : Db :=
  ⟨[⟨1, n1, "", none⟩, ⟨2, n2, "", none⟩], [], 1, []⟩

/-- Parametric sequential scenario: engine state where the provider answers
both embed calls and both similar searches return no hits. -/
def seqState0 (n1 n2 : String) : EngineState :=
  ⟨seqDb0 n1 n2, [], [.ok [1], .ok [1]], [.hits [], .hits []]⟩

/-- Parametric sequential scenario: the first job. -/
def seqJob1 (k1 n1 : String) (t1 : Nat) : DeduplicationJob := ⟨"j1", 1, n1, "p1", k1, t1⟩

/-- Parametric sequential scenario: the second job. -/
def seqJob2 (k2 n2 : String) (t2 : Nat) : DeduplicationJob := ⟨"j2", 2, n2, "p2", k2, t2⟩

/-- Parametric sequential scenario: the first run. -/
def seqRun1 (k1 n1 n2 : String) (t1 : Nat) :
    Except String DeduplicationResult × EngineState :=
  performDeduplication (seqState0 n1 n2) 10 (seqJob1 k1 n1 t1)

/-- Parametric sequential scenario: the second run, on the first run's state. -/
def seqRun2 (k1 k2 n1 n2 : String) (t1 t2 : Nat) :
    Except String DeduplicationResult × EngineState :=
  performDeduplication (seqRun1 k1 n1 n2 t1).2 11 (seqJob2 k2 n2 t2)

/-- A worker-scenario job payload. -/
def c1Job : DeduplicationJob := ⟨"j1", 1, "a.txt", "/tmp/a.txt", "k1", 0⟩

/-- The durable row the ingest path created for it (`pending`). -/
def c1JobRow : JobRow :=
  ⟨"j1", 1, "a.txt", some "/tmp/a.txt", "k1", "pending", none, 0, 0, none⟩

/-- Full system state with the job enqueued and every external call set to
succeed: the engine run will complete. -/
def c1State : SysState :=
  { db := ⟨[⟨1, "a.txt", "", none⟩], [], 1, [c1JobRow]⟩,
    redis := ⟨[c1Job], [(statusKey "j1", ⟨"j1", "pending", 0, 0, none⟩)]⟩,
    os := [],
    embedWorld := [.ok [1]],
    searchWorld := [.hits []],
    broadcasts := [],
    now := 5 }

/-- The system after one worker iteration. -/
def c1After : SysState := workerStep c1State

/-! ## Helper lemmas -/

theorem foldl_lastDot_no_dot (ext acc : List Char) (h : '.' ∉ ext) :
    ext.foldl (fun acc c => if c = '.' then [] else acc ++ [c]) acc = acc ++ ext := by
  induction ext generalizing acc with
  | nil => simp
  | cons c cs ih =>
    have hc : ¬(c = '.') := fun hh => h (by rw [← hh]; exact List.mem_cons_self c cs)
    simp only [List.foldl_cons, if_neg hc]
    rw [ih _ (fun hm => h (List.mem_cons_of_mem _ hm))]
    simp

theorem lastDotSegment_append_dot (base ext : List Char) :
    lastDotSegment (base ++ '.' :: ext) = lastDotSegment ext := by
  unfold lastDotSegment
  rw [List.foldl_append]
  simp

theorem lastDotSegment_no_dot (cs : List Char) (h : '.' ∉ cs) :
    lastDotSegment cs = cs := by
  unfold lastDotSegment
  rw [foldl_lastDot_no_dot cs [] h]
  simp

theorem lookupStatus_set (m : List (String × JobStatus)) (k : String) (v : JobStatus) :
    lookupStatus (setStatusEntry m k v) k = some v := by
  unfold lookupStatus setStatusEntry
  rw [List.find?_cons_of_pos _ (by simp)]
  rfl

/-! ## C8 — media classification -/

/-- C8 counterexample: the name `"png"` contains no dot — it has no
extension — yet `is_image_file` classifies it as an image, because
`split('.').last()` yields the whole name. -/
theorem C8_counterexample_dotless_image_name :
    isImageFile "png" = true ∧ '.' ∉ "png".data := by
  constructor
  · decide
  · decide

/-- C8 (amended): classification lowercases the substring after the last dot
and compares it with {jpg, jpeg, png, gif, bmp, webp, tiff}; for a dotted
name this is the claimed case-insensitive trailing-extension rule, but a name
without a dot is compared whole against the set, so an extensionless file is
classified text only when its entire name is not itself an image extension. -/
theorem C8_media_class_by_last_dot_segment (base ext name : List Char)
    (hext : '.' ∉ ext) (hname : '.' ∉ name) :
    isImageFile (String.mk (base ++ '.' :: ext))
      = imageExtensions.contains (String.mk (ext.map Char.toLower))
    ∧ isImageFile (String.mk name)
      = imageExtensions.contains (String.mk (name.map Char.toLower)) := by
  constructor
  · unfold isImageFile
    rw [show (String.mk (base ++ '.' :: ext)).data = base ++ '.' :: ext from rfl,
      lastDotSegment_append_dot, lastDotSegment_no_dot ext hext]
  · unfold isImageFile
    rw [show (String.mk name).data = name from rfl, lastDotSegment_no_dot name hname]

/-- Witness for C8: the dotted name `a.JPG` is classified by its lowercased
extension, and the dotless name `png` by its whole lowercased name. -/
theorem C8_media_class_by_last_dot_segment_witness :
    ('.' ∉ ['J', 'P', 'G']) ∧ ('.' ∉ ['p', 'n', 'g'])
    ∧ isImageFile (String.mk (['a'] ++ '.' :: ['J', 'P', 'G']))
        = imageExtensions.contains (String.mk (['J', 'P', 'G'].map Char.toLower))
    ∧ isImageFile (String.mk ['p', 'n', 'g'])
        = imageExtensions.contains (String.mk (['p', 'n', 'g'].map Char.toLower)) := by
  refine ⟨by decide, by decide, ?_, ?_⟩
  · exact (C8_media_class_by_last_dot_segment ['a'] ['J', 'P', 'G'] ['p', 'n', 'g']
      (by decide) (by decide)).1
  · exact (C8_media_class_by_last_dot_segment ['a'] ['J', 'P', 'G'] ['p', 'n', 'g']
      (by decide) (by decide)).2

/-! ## C10 — subscription handling -/

/-- C10: handling `subscribe` twice equals handling it once; on a
duplicate-free session state the subscription set stays duplicate-free with
the job id present at most once (sessions start from the empty set); and
`unsubscribe` removes every occurrence of the job id. -/
theorem C10_subscribe_idempotent_unsubscribe_all (subs : List String)
    (jobId : String) (hnd : subs.Nodup) :
    handleSubscribe (handleSubscribe subs jobId) jobId = handleSubscribe subs jobId
    ∧ (handleSubscribe subs jobId).Nodup
    ∧ (handleSubscribe subs jobId).count jobId ≤ 1
    ∧ jobId ∉ handleUnsubscribe (handleSubscribe subs jobId) jobId
    ∧ newSessionSubs.Nodup := by
  have hsub : (handleSubscribe subs jobId).Nodup := by
    unfold handleSubscribe
    by_cases h : jobId ∈ subs
    · simpa [h] using hnd
    · simp only [h, if_neg, if_false]
      exact hnd.append (List.nodup_singleton _) (List.disjoint_singleton.mpr h)
  refine ⟨?_, hsub, ?_, ?_, List.nodup_nil⟩
  · by_cases h : jobId ∈ subs
    · simp [handleSubscribe, h]
    · simp [handleSubscribe, h]
  · exact List.nodup_iff_count_le_one.mp hsub jobId
  · simp [handleUnsubscribe, List.mem_filter]

/-- Witness for C10 on a concrete session state. -/
theorem C10_subscribe_idempotent_unsubscribe_all_witness :
    (["a"] : List String).Nodup
    ∧ handleSubscribe (handleSubscribe ["a"] "b") "b" = handleSubscribe ["a"] "b"
    ∧ (handleSubscribe ["a"] "b").count "b" ≤ 1
    ∧ "b" ∉ handleUnsubscribe (handleSubscribe ["a"] "b") "b" := by
  have h := C10_subscribe_idempotent_unsubscribe_all ["a"] "b" (by decide)
  exact ⟨by decide, h.1, h.2.2.1, h.2.2.2.1⟩

/-! ## C7 — job listing parameters -/

instance : IsTotal JobRow newestFirst :=
  ⟨fun a b => Nat.le_total b.created_at a.created_at⟩

instance : IsTrans JobRow newestFirst :=
  ⟨fun _ _ _ hab hbc => Nat.le_trans hbc hab⟩

/-- C7 counterexample: a requested offset of −5 is passed through unclamped
(`unwrap_or(0)` only covers absence), so the store receives −5 — and rejects
the query — instead of the claimed effective offset 0. -/
theorem C7_counterexample_negative_offset :
    effectiveOffset (some (-5)) = -5 ∧ (-5 : Int) ≠ 0
    ∧ runGetJobs [] none none (some (-5)) = .error "OFFSET must not be negative" := by
  refine ⟨rfl, by decide, rfl⟩

/-- C7 (amended): a requested limit above 100 clamps to 100, an absent limit
defaults to 50, an absent offset defaults to 0, and a successful listing is
ordered newest-first by `created_at`; but a present offset — negative
included — is passed through unchanged. -/
theorem C7_get_jobs_paging (t : List JobRow) (qs : Option String)
    (ql qo : Option Int) (l o : Int) (rows : List JobRow)
    (hl : 100 < l) (hrun : runGetJobs t qs ql qo = .ok rows) :
    effectiveLimit (some l) = 100
    ∧ effectiveLimit none = 50
    ∧ effectiveOffset none = 0
    ∧ effectiveOffset (some o) = o
    ∧ rows.Sorted newestFirst := by
  refine ⟨?_, rfl, rfl, rfl, ?_⟩
  · unfold effectiveLimit
    simp only [Option.getD_some]
    omega
  · simp only [runGetJobs] at hrun
    by_cases hneg : effectiveLimit ql < 0 ∨ effectiveOffset qo < 0
    · rw [if_pos hneg] at hrun
      exact absurd hrun (by simp)
    · rw [if_neg hneg] at hrun
      simp only [Except.ok.injEq] at hrun
      rw [← hrun]
      exact List.Pairwise.sublist (List.take_sublist _ _)
        (List.Pairwise.sublist (List.drop_sublist _ _)
          (List.sorted_insertionSort newestFirst _))

/-- Witness for C7: listing a concrete two-row table with limit 150 and
offset 1 returns the older row, sorted. -/
theorem C7_get_jobs_paging_witness :
    (100 : Int) < 150
    ∧ runGetJobs c7Table none (some 150) (some 1) = .ok [c7Row1]
    ∧ effectiveLimit (some 150) = 100
    ∧ ([c7Row1] : List JobRow).Sorted newestFirst := by
  have h := C7_get_jobs_paging c7Table none (some 150) (some 1) 150 0 [c7Row1]
    (by decide) (by rfl)
  exact ⟨by decide, by rfl, h.1, h.2.2.2.2⟩

/-! ## C9 — transient status contract of the queue -/

/-- C9: a successful enqueue appends the payload and stamps the transient
status `pending` in the same operation; a successful dequeue pops the FIFO
head and stamps `processing` before the payload is returned; and a transient
update reuses an existing record's `created_at`, stamping the clock only when
no record exists. -/
theorem C9_transient_status_contract (r : RedisState) (job j : DeduplicationJob)
    (jid st : String) (err : Option String) (prior : JobStatus) (now : Nat) :
    ((enqueueDeduplicationJob r job now).2 = job.job_id
      ∧ (enqueueDeduplicationJob r job now).1.queue = job :: r.queue
      ∧ (lookupStatus (enqueueDeduplicationJob r job now).1.statusMap
          (statusKey job.job_id)).map JobStatus.status = some "pending")
    ∧ (r.queue.getLast? = some j →
        (dequeueJob r now).1 = some j
        ∧ (lookupStatus ((dequeueJob r now).2).statusMap
            (statusKey j.job_id)).map JobStatus.status = some "processing")
    ∧ (lookupStatus r.statusMap (statusKey jid) = some prior →
        (lookupStatus (updateJobStatus r jid st err now).statusMap
          (statusKey jid)).map JobStatus.created_at = some prior.created_at)
    ∧ (lookupStatus r.statusMap (statusKey jid) = none →
        (lookupStatus (updateJobStatus r jid st err now).statusMap
          (statusKey jid)).map JobStatus.created_at = some now) := by
  refine ⟨⟨rfl, ?_, ?_⟩, ?_, ?_, ?_⟩
  · simp [enqueueDeduplicationJob, updateJobStatus]
  · unfold enqueueDeduplicationJob updateJobStatus
    rw [lookupStatus_set]
    rfl
  · intro hq
    unfold dequeueJob
    rw [hq]
    refine ⟨rfl, ?_⟩
    unfold updateJobStatus
    rw [lookupStatus_set]
    rfl
  · intro hprior
    unfold updateJobStatus
    rw [hprior, lookupStatus_set]
    rfl
  · intro hnone
    unfold updateJobStatus
    rw [hnone, lookupStatus_set]
    rfl

/-- Witness for C9 on concrete queue states: a fresh enqueue stamps `pending`
with the clock, a dequeue stamps `processing`, and an update on a present
record keeps its `created_at`. -/
theorem C9_transient_status_contract_witness :
    ((lookupStatus (enqueueDeduplicationJob ⟨[], []⟩ c1Job 7).1.statusMap
        (statusKey c1Job.job_id)).map JobStatus.status = some "pending")
    ∧ ((dequeueJob ⟨[c1Job], []⟩ 8).1 = some c1Job)
    ∧ ((lookupStatus (updateJobStatus
          ⟨[], [(statusKey "j1", ⟨"j1", "pending", 3, 3, none⟩)]⟩
          "j1" "completed" none 9).statusMap
        (statusKey "j1")).map JobStatus.created_at = some 3) := by
  refine ⟨?_, ?_, ?_⟩
  · exact (C9_transient_status_contract ⟨[], []⟩ c1Job c1Job "x" "y" none
      ⟨"", "", 0, 0, none⟩ 7).1.2.2
  · exact ((C9_transient_status_contract ⟨[c1Job], []⟩ c1Job c1Job "x" "y" none
      ⟨"", "", 0, 0, none⟩ 8).2.1 (by rfl)).1
  · exact (C9_transient_status_contract
      ⟨[], [(statusKey "j1", ⟨"j1", "pending", 3, 3, none⟩)]⟩ c1Job c1Job
      "j1" "completed" none ⟨"j1", "pending", 3, 3, none⟩ 9).2.2.1 (by rfl)

/-! ## Embedding-step helpers (shared by C5, C4, C1) -/

theorem generateFileEmbeddings_tail (world : EmbedWorld) (s3Key fileName : String) :
    (generateFileEmbeddings world s3Key fileName).2 = world.tail := by
  cases world <;> unfold generateFileEmbeddings bedrockCall <;> split <;> rfl

theorem generateFileEmbeddings_ok (world : EmbedWorld) (s3Key fileName : String)
    (v : List Rat) (h : world.head? = some (.ok v)) :
    (generateFileEmbeddings world s3Key fileName).1 = .ok v := by
  cases world with
  | nil => simp at h
  | cons a w =>
    simp only [List.head?_cons, Option.some.injEq] at h
    subst h
    unfold generateFileEmbeddings bedrockCall
    split <;> rfl

theorem generateFileEmbeddings_error (world : EmbedWorld) (s3Key fileName : String)
    (e : String) (h : world.head? = some (.error e)) :
    (generateFileEmbeddings world s3Key fileName).1 = .error
      ((if isImageFile fileName then "Failed to generate image embeddings: "
        else "Failed to generate text embeddings: ") ++ e) := by
  cases world with
  | nil => simp at h
  | cons a w =>
    simp only [List.head?_cons, Option.some.injEq] at h
    subst h
    by_cases himg : isImageFile fileName <;>
      simp [generateFileEmbeddings, bedrockCall, himg]

theorem performDeduplication_embed_error (s : EngineState) (now : Nat)
    (job : DeduplicationJob) (nm : String) (sz : Int) (e : String)
    (hinfo : getFileInfo s.db job.file_id = .ok (nm, sz))
    (he : (generateFileEmbeddings s.embedWorld job.s3_key job.file_name).1
        = .error e) :
    (performDeduplication s now job).1 = .error e := by
  rcases hgfe : generateFileEmbeddings s.embedWorld job.s3_key job.file_name
    with ⟨er, w1⟩
  rw [hgfe] at he
  change er = .error e at he
  subst he
  simp only [performDeduplication, hinfo, hgfe]

theorem performDeduplication_embed_ok (s : EngineState) (now : Nat)
    (job : DeduplicationJob) (nm : String) (sz : Int) (v : List Rat)
    (hinfo : getFileInfo s.db job.file_id = .ok (nm, sz))
    (hv : (generateFileEmbeddings s.embedWorld job.s3_key job.file_name).1 = .ok v) :
    (performDeduplication s now job).1 = .ok
      ⟨job.file_id, generateFileHash job.s3_key,
       findExactDuplicates s.db (generateFileHash job.s3_key) job.file_id,
       (findSimilarFiles s.searchWorld v job.file_id job.file_name).1,
       (updateFileClusters s.db job.file_id
         (findExactDuplicates s.db (generateFileHash job.s3_key) job.file_id)
         (findSimilarFiles s.searchWorld v job.file_id job.file_name).1).2⟩
    ∧ (performDeduplication s now job).2 =
      { db := updateFileHash (updateFileClusters s.db job.file_id
            (findExactDuplicates s.db (generateFileHash job.s3_key) job.file_id)
            (findSimilarFiles s.searchWorld v job.file_id job.file_name).1).1
          job.file_id (generateFileHash job.s3_key),
        os := storeEmbeddingsInOpensearch s.os job.file_id job.file_name
          (generateFileHash job.s3_key) v now,
        embedWorld := s.embedWorld.tail,
        searchWorld :=
          (findSimilarFiles s.searchWorld v job.file_id job.file_name).2 } := by
  have htail := generateFileEmbeddings_tail s.embedWorld job.s3_key job.file_name
  rcases hgfe : generateFileEmbeddings s.embedWorld job.s3_key job.file_name
    with ⟨er, w1⟩
  rw [hgfe] at hv htail
  change er = .ok v at hv
  change w1 = s.embedWorld.tail at htail
  subst hv
  rcases hfs : findSimilarFiles s.searchWorld v job.file_id job.file_name
    with ⟨sim, sw1⟩
  rcases hufc : updateFileClusters s.db job.file_id
      (findExactDuplicates s.db (generateFileHash job.s3_key) job.file_id) sim
    with ⟨db1, cid⟩
  constructor
  · simp only [performDeduplication, hinfo, hgfe, hfs, hufc]
  · simp only [performDeduplication, hinfo, hgfe, hfs, hufc, htail]

/-! ## C5 — no retry of the embedding call -/

/-- C5 counterexample: the provider fails transiently once and would succeed
on a retry, yet the engine reports failure and leaves the successful second
response unconsumed — so a first-call failure is never retried. -/
theorem C5_counterexample_no_retry :
    (generateFileEmbeddings [Except.error "transient", Except.ok [1]] "k1" "a.txt").1
      = Except.error "Failed to generate text embeddings: transient"
    ∧ (generateFileEmbeddings [Except.error "transient", Except.ok [1]] "k1" "a.txt").2
      = [Except.ok [1]] := ⟨rfl, rfl⟩

/-- C5 (amended): the Engine performs no retry: the embed step makes exactly
one provider call (the response queue loses exactly its head), it fails
whenever that single response is an error — so failing twice in a row fails
the job, but a first-call failure also fails the job even when a retry would
succeed — and when the metadata read succeeded the whole pipeline fails or
completes according to that single response. -/
theorem C5_embed_no_retry (world : EmbedWorld) (s3Key fileName : String)
    (s : EngineState) (now : Nat) (job : DeduplicationJob) (nm : String)
    (sz : Int) (hinfo : getFileInfo s.db job.file_id = .ok (nm, sz)) :
    ((generateFileEmbeddings world s3Key fileName).2 = world.tail)
    ∧ (∀ v, world.head? = some (.ok v) →
        (generateFileEmbeddings world s3Key fileName).1 = .ok v)
    ∧ (∀ e, world.head? = some (.error e) →
        (generateFileEmbeddings world s3Key fileName).1 = .error
          ((if isImageFile fileName then "Failed to generate image embeddings: "
            else "Failed to generate text embeddings: ") ++ e))
    ∧ (∀ e, s.embedWorld.head? = some (.error e) →
        ∃ msg, (performDeduplication s now job).1 = Except.error msg)
    ∧ (∀ v, s.embedWorld.head? = some (.ok v) →
        ∃ res, (performDeduplication s now job).1 = Except.ok res) := by
  refine ⟨generateFileEmbeddings_tail world s3Key fileName,
    fun v h => generateFileEmbeddings_ok world s3Key fileName v h,
    fun e h => generateFileEmbeddings_error world s3Key fileName e h, ?_, ?_⟩
  · intro e h
    exact ⟨_, performDeduplication_embed_error s now job nm sz _ hinfo
      (generateFileEmbeddings_error s.embedWorld job.s3_key job.file_name e h)⟩
  · intro v h
    exact ⟨_, (performDeduplication_embed_ok s now job nm sz v hinfo
      (generateFileEmbeddings_ok s.embedWorld job.s3_key job.file_name v h)).1⟩

/-- Witness for C5: a concrete engine state whose provider fails twice — the
pipeline fails on the first response; and one whose provider succeeds. -/
theorem C5_embed_no_retry_witness :
    (getFileInfo c4Db 1 = .ok ("a.txt", 0))
    ∧ (([Except.error "transient", Except.error "transient"] : EmbedWorld).head?
        = some (Except.error "transient"))
    ∧ (∃ msg, (performDeduplication
        ⟨c4Db, [], [.error "transient", .error "transient"], [.hits []]⟩
        3 c4Job1).1 = Except.error msg)
    ∧ (∃ res, (performDeduplication c4State 10 c4Job1).1 = Except.ok res) := by
  refine ⟨by rfl, by rfl, ?_, ?_⟩
  · exact (C5_embed_no_retry [] "k" "n"
      ⟨c4Db, [], [.error "transient", .error "transient"], [.hits []]⟩
      3 c4Job1 "a.txt" 0 (by rfl)).2.2.2.1 "transient" (by rfl)
  · exact (C5_embed_no_retry [] "k" "n" c4State 10 c4Job1 "a.txt" 0
      (by rfl)).2.2.2.2 [1] (by rfl)

/-! ## C6 — `completed_at` iff terminal status -/

theorem createJobRecord_inv (t : List JobRow) (jid : String) (fid : Int)
    (nm : String) (fp : Option String) (k : String) (now : Nat)
    (hinv : ∀ r ∈ t, jobRowInv r) :
    ∀ r ∈ createJobRecord t jid fid nm fp k now, jobRowInv r := by
  intro r hr
  unfold createJobRecord at hr
  rcases List.mem_append.mp hr with h | h
  · exact hinv r h
  · simp only [List.mem_singleton] at h
    subst h
    simp [jobRowInv]

theorem updateJobStatusInDb_inv (t : List JobRow) (jid st : String)
    (e : Option String) (now : Nat) (hinv : ∀ r ∈ t, jobRowInv r) :
    ∀ r ∈ updateJobStatusInDb t jid st e now, jobRowInv r := by
  intro r hr
  simp only [updateJobStatusInDb, List.mem_map] at hr
  obtain ⟨r0, hr0, rfl⟩ := hr
  by_cases hid : r0.job_id = jid
  · simp only [if_pos hid]
    by_cases hst : st = "completed" ∨ st = "failed"
    · simp [jobRowInv, hst]
    · simp [jobRowInv, hst]
  · simp only [if_neg hid]
    exact hinv r0 hr0

/-- C6: from any table satisfying the invariant (in particular one populated
by `create_job_record`, which inserts status `pending` with null
`completed_at`), every sequence of inserts and status writes preserves
`completed_at ≠ null ⇔ status ∈ {completed, failed}`; and a status write
stamps `completed_at = now` on the matching row exactly when the new status
is terminal, writing null otherwise. -/
theorem C6_completed_at_iff_terminal (t : List JobRow) (ops : List JobStoreOp)
    (jid nm k st : String) (fid : Int) (fp err : Option String) (now : Nat)
    (hinv : ∀ r ∈ t, jobRowInv r) :
    (∀ r ∈ applyJobStoreOps t ops, jobRowInv r)
    ∧ ((createJobRecord t jid fid nm fp k now).getLast?
        = some ⟨jid, fid, nm, fp, k, "pending", none, now, now, none⟩)
    ∧ (∀ r ∈ updateJobStatusInDb t jid st err now, r.job_id = jid →
        r.status = st
        ∧ r.completed_at
            = (if st = "completed" ∨ st = "failed" then some now else none)) := by
  refine ⟨?_, ?_, ?_⟩
  · induction ops generalizing t with
    | nil => exact hinv
    | cons op rest ih =>
      intro r hr
      refine ih (applyJobStoreOp t op) ?_ r hr
      cases op with
      | create j f n p s nw => exact createJobRecord_inv t j f n p s nw hinv
      | setStatus j s e nw => exact updateJobStatusInDb_inv t j s e nw hinv
  · unfold createJobRecord
    exact List.getLast?_concat _
  · intro r hr hid
    simp only [updateJobStatusInDb, List.mem_map] at hr
    obtain ⟨r0, hr0, rfl⟩ := hr
    by_cases h0 : r0.job_id = jid
    · simp [if_pos h0]
    · rw [if_neg h0] at hid ⊢
      exact absurd hid h0

/-- Witness for C6: the empty table satisfies the invariant; creating a job
and completing it keeps the invariant on the resulting concrete row, and the
write stamped `completed_at`. -/
theorem C6_completed_at_iff_terminal_witness :
    jobRowInv ⟨"j1", 1, "a.txt", none, "k1", "completed", none, 4, 6, some 6⟩
    ∧ ((createJobRecord [] "j1" 1 "a.txt" none "k1" 4).getLast?
        = some ⟨"j1", 1, "a.txt", none, "k1", "pending", none, 4, 4, none⟩) := by
  have h := C6_completed_at_iff_terminal [] [.create "j1" 1 "a.txt" none "k1" 4,
    .setStatus "j1" "completed" none 6] "j1" "a.txt" "k1" "completed" 1 none none 4
    (by simp)
  refine ⟨?_, h.2.1⟩
  exact h.1 ⟨"j1", 1, "a.txt", none, "k1", "completed", none, 4, 6, some 6⟩ (by decide)

/-! ## Hex-encoding injectivity (for C2) -/

theorem hexDigit_injOn : ∀ a < 16, ∀ b < 16, hexDigit a = hexDigit b → a = b := by
  decide

theorem hexPair_flatten_inj (l1 : List Nat) : ∀ l2 : List Nat,
    (∀ b ∈ l1, b < 256) → (∀ b ∈ l2, b < 256) →
    (l1.map hexPair).flatten = (l2.map hexPair).flatten → l1 = l2 := by
  induction l1 with
  | nil =>
    intro l2 _ _ heq
    cases l2 with
    | nil => rfl
    | cons b bs => simp [hexPair] at heq
  | cons a as ih =>
    intro l2 h1 h2 heq
    cases l2 with
    | nil => simp [hexPair] at heq
    | cons b bs =>
      simp only [List.map_cons, List.flatten_cons, hexPair, List.cons_append,
        List.nil_append, List.cons.injEq] at heq
      obtain ⟨hd1, hd2, hrest⟩ := heq
      have ha := h1 a (List.mem_cons_self a as)
      have hb := h2 b (List.mem_cons_self b bs)
      have e1 : a / 16 = b / 16 :=
        hexDigit_injOn _ (by omega) _ (by omega) hd1
      have e2 : a % 16 = b % 16 :=
        hexDigit_injOn _ (by omega) _ (by omega) hd2
      have hab : a = b := by omega
      subst hab
      rw [ih bs (fun x hx => h1 x (List.mem_cons_of_mem a hx))
        (fun x hx => h2 x (List.mem_cons_of_mem a hx)) hrest]

theorem hexOfBytes_inj (l1 l2 : List Nat) (h1 : ∀ b ∈ l1, b < 256)
    (h2 : ∀ b ∈ l2, b < 256) (heq : hexOfBytes l1 = hexOfBytes l2) : l1 = l2 := by
  unfold hexOfBytes at heq
  exact hexPair_flatten_inj l1 l2 h1 h2 (congrArg String.data heq)

theorem sha256_bytes_lt (msg : List Nat) : ∀ b ∈ sha256 msg, b < 256 := by
  intro b hb
  unfold sha256 at hb
  simp only [List.mem_flatten, List.mem_map] at hb
  obtain ⟨l, ⟨w, _hw, rfl⟩, hbl⟩ := hb
  unfold wordBytes at hbl
  simp only [List.mem_cons, List.not_mem_nil, or_false] at hbl
  rcases hbl with h | h | h | h <;> (subst h; exact Nat.mod_lt _ (by norm_num))

/-! ## C2 — the digest is over the key string -/

/-- C2: the content digest the engine computes is the lowercase-hex SHA-256
of the object-key string itself — the stored object's bytes are never read —
so jobs with equal keys get equal digests, keys whose SHA-256 differ get
different digests, and the digest differs from the hex SHA-256 of any byte
content whose SHA-256 differs from the key's. -/
theorem C2_digest_over_key (j1 j2 : DeduplicationJob) :
    generateFileHash j1.s3_key = hexOfBytes (sha256 (utf8Bytes j1.s3_key))
    ∧ (j1.s3_key = j2.s3_key →
        generateFileHash j1.s3_key = generateFileHash j2.s3_key)
    ∧ (sha256 (utf8Bytes j1.s3_key) ≠ sha256 (utf8Bytes j2.s3_key) →
        generateFileHash j1.s3_key ≠ generateFileHash j2.s3_key)
    ∧ (∀ objBytes : List Nat, sha256 objBytes ≠ sha256 (utf8Bytes j1.s3_key) →
        generateFileHash j1.s3_key ≠ hexOfBytes (sha256 objBytes)) := by
  refine ⟨rfl, fun h => by rw [h], ?_, ?_⟩
  · intro hne he
    exact hne (hexOfBytes_inj _ _ (sha256_bytes_lt _) (sha256_bytes_lt _) he)
  · intro objBytes hne he
    exact hne (hexOfBytes_inj _ _ (sha256_bytes_lt _) (sha256_bytes_lt _) he.symm)

/-- Witness for C2 on concrete jobs: equal keys agree, the keys `k1`/`k2`
have different SHA-256 and hence different digests, and the digest of `k1`
differs from the digest of the stored bytes `[0, 1]`. -/
theorem C2_digest_over_key_witness :
    (c4Job1.s3_key = c4Job1.s3_key)
    ∧ (sha256 (utf8Bytes c4Job1.s3_key) ≠ sha256 (utf8Bytes c4Job2.s3_key))
    ∧ generateFileHash c4Job1.s3_key ≠ generateFileHash c4Job2.s3_key
    ∧ (sha256 [0, 1] ≠ sha256 (utf8Bytes c4Job1.s3_key))
    ∧ generateFileHash c4Job1.s3_key ≠ hexOfBytes (sha256 [0, 1]) := by
  refine ⟨rfl, by decide, ?_, by decide, ?_⟩
  · exact (C2_digest_over_key c4Job1 c4Job2).2.2.1 (by decide)
  · exact (C2_digest_over_key c4Job1 c4Job2).2.2.2 [0, 1] (by decide)

/-! ## Cluster-update machinery (for C3, C4, C1) -/

theorem foldl_setFileCluster_files (sim : List SimilarFile) (c2 : Int) :
    ∀ d : Db, (sim.foldl (fun d sf => setFileCluster d sf.file_id c2) d).files
      = d.files.map (fun r =>
          if r.file_id ∈ sim.map SimilarFile.file_id
          then { r with cluster_id := some c2 } else r) := by
  induction sim with
  | nil => intro d; simp
  | cons sf rest ih =>
    intro d
    rw [List.foldl_cons, ih (setFileCluster d sf.file_id c2)]
    simp only [setFileCluster, List.map_map, List.map_cons]
    congr 1
    funext r
    by_cases h1 : r.file_id = sf.file_id <;>
      by_cases h2 : r.file_id ∈ rest.map SimilarFile.file_id <;>
      simp [Function.comp, h1, h2]

theorem foldl_setFileCluster_meta (sim : List SimilarFile) (c2 : Int) :
    ∀ d : Db, (sim.foldl (fun d sf => setFileCluster d sf.file_id c2) d).clusters
        = d.clusters
    ∧ (sim.foldl (fun d sf => setFileCluster d sf.file_id c2) d).nextClusterId
        = d.nextClusterId
    ∧ (sim.foldl (fun d sf => setFileCluster d sf.file_id c2) d).jobs = d.jobs := by
  induction sim with
  | nil => intro d; exact ⟨rfl, rfl, rfl⟩
  | cons sf rest ih =>
    intro d
    simp only [List.foldl_cons]
    exact ih (setFileCluster d sf.file_id c2)

theorem firstExistingCluster_append (db : Db) (pre post : List SimilarFile)
    (sf : SimilarFile) (c : Int)
    (hpre : ∀ p ∈ pre, lookupNonNullCluster db p.file_id = none)
    (hsf : lookupNonNullCluster db sf.file_id = some c) :
    firstExistingCluster db (pre ++ sf :: post) = some c := by
  induction pre with
  | nil => simp [firstExistingCluster, hsf]
  | cons p ps ih =>
    have hp := hpre p (List.mem_cons_self p ps)
    simp only [List.cons_append, firstExistingCluster, hp]
    exact ih (fun q hq => hpre q (List.mem_cons_of_mem p hq))

theorem updateFileClusters_assigns (db : Db) (fileId : Int) (ex : List Int)
    (sim : List SimilarFile) (c2 : Int)
    (hres : (updateFileClusters db fileId ex sim).2 = some c2) :
    ∀ r ∈ (updateFileClusters db fileId ex sim).1.files,
      (r.file_id = fileId ∨ r.file_id ∈ sim.map SimilarFile.file_id) →
      r.cluster_id = some c2 := by
  by_cases hcond : ex = [] ∧ sim = []
  · simp [updateFileClusters, hcond] at hres
  · rcases hfc : firstExistingCluster db sim with _ | c3
    · have hufc : updateFileClusters db fileId ex sim
          = (sim.foldl (fun d sf => setFileCluster d sf.file_id db.nextClusterId)
              (setFileCluster
                { db with clusters := db.clusters ++ [⟨db.nextClusterId, 9 / 10⟩],
                          nextClusterId := db.nextClusterId + 1 }
                fileId db.nextClusterId),
             some db.nextClusterId) := by
        simp only [updateFileClusters, if_neg hcond, hfc, insertCluster]
      rw [hufc] at hres ⊢
      simp only [Option.some.injEq] at hres
      subst hres
      intro r hr hid
      rw [foldl_setFileCluster_files] at hr
      simp only [setFileCluster, List.map_map, List.mem_map] at hr
      obtain ⟨r0, _hr0, rfl⟩ := hr
      by_cases h1 : r0.file_id = fileId
      · by_cases h2 : ∃ a ∈ sim, a.file_id = r0.file_id
        · simp [h1, h2]
        · simp [h1, h2]
      · by_cases h2 : ∃ a ∈ sim, a.file_id = r0.file_id
        · simp [h1, h2]
        · simp [h1, h2] at hid
    · have hufc : updateFileClusters db fileId ex sim
          = (sim.foldl (fun d sf => setFileCluster d sf.file_id c3)
              (setFileCluster db fileId c3), some c3) := by
        simp only [updateFileClusters, if_neg hcond, hfc]
      rw [hufc] at hres ⊢
      simp only [Option.some.injEq] at hres
      subst hres
      intro r hr hid
      rw [foldl_setFileCluster_files] at hr
      simp only [setFileCluster, List.map_map, List.mem_map] at hr
      obtain ⟨r0, _hr0, rfl⟩ := hr
      by_cases h1 : r0.file_id = fileId
      · by_cases h2 : ∃ a ∈ sim, a.file_id = r0.file_id
        · simp [h1, h2]
        · simp [h1, h2]
      · by_cases h2 : ∃ a ∈ sim, a.file_id = r0.file_id
        · simp [h1, h2]
        · simp [h1, h2] at hid

/-! ## C3 — cluster assignment rule -/

/-- C3: with both match lists empty nothing happens and no cluster is
assigned; otherwise the first similar result already holding a non-null
`cluster_id` determines the adopted cluster; when none does, a fresh cluster
with `intra_similarity_score = 0.9` is created; and the chosen cluster id is
written on the current file and on every file of the similar list. -/
theorem C3_cluster_assignment (db : Db) (fileId : Int) (ex : List Int)
    (sim : List SimilarFile) :
    (ex = [] ∧ sim = [] → updateFileClusters db fileId ex sim = (db, none))
    ∧ (∀ pre sf post c, sim = pre ++ sf :: post →
        (∀ p ∈ pre, lookupNonNullCluster db p.file_id = none) →
        lookupNonNullCluster db sf.file_id = some c →
        (updateFileClusters db fileId ex sim).2 = some c)
    ∧ (¬(ex = [] ∧ sim = []) → firstExistingCluster db sim = none →
        (updateFileClusters db fileId ex sim).2 = some db.nextClusterId
        ∧ (⟨db.nextClusterId, 9 / 10⟩ : ClusterRow)
            ∈ (updateFileClusters db fileId ex sim).1.clusters)
    ∧ (∀ c2, (updateFileClusters db fileId ex sim).2 = some c2 →
        ∀ r ∈ (updateFileClusters db fileId ex sim).1.files,
          (r.file_id = fileId ∨ r.file_id ∈ sim.map SimilarFile.file_id) →
          r.cluster_id = some c2) := by
  refine ⟨?_, ?_, ?_, fun c2 hres => updateFileClusters_assigns db fileId ex sim c2 hres⟩
  · rintro ⟨h1, h2⟩
    subst h1; subst h2
    simp [updateFileClusters]
  · intro pre sf post c hs hp hc
    subst hs
    have hne : ¬(ex = [] ∧ pre ++ sf :: post = []) := by simp
    simp only [updateFileClusters, if_neg hne,
      firstExistingCluster_append db pre post sf c hp hc]
  · intro hne hnone
    constructor
    · simp only [updateFileClusters, if_neg hne, hnone, insertCluster]
    · simp only [updateFileClusters, if_neg hne, hnone, insertCluster]
      rcases foldl_setFileCluster_meta sim db.nextClusterId
        (setFileCluster { db with
          clusters := db.clusters ++ [⟨db.nextClusterId, 9 / 10⟩],
          nextClusterId := db.nextClusterId + 1 } fileId db.nextClusterId)
        with ⟨hcl, _, _⟩
      rw [hcl]
      simp [setFileCluster]

/-- Witness for C3 on a concrete store: file 30 (similar hit, already in
cluster 7) decides the adopted cluster for file 10, and the cluster id is
written on both; and the empty case leaves the store untouched. -/
theorem C3_cluster_assignment_witness :
    (updateFileClusters ⟨[⟨10, "a", "", none⟩], [], 1, []⟩ 10 [] [] =
      (⟨[⟨10, "a", "", none⟩], [], 1, []⟩, none))
    ∧ ((updateFileClusters
        ⟨[⟨10, "a", "", none⟩, ⟨30, "c", "", some 7⟩], [⟨7, 1 / 2⟩], 8, []⟩
        10 [] [⟨30, "c", "", 9 / 10⟩]).2 = some 7)
    ∧ (∀ r ∈ (updateFileClusters
        ⟨[⟨10, "a", "", none⟩, ⟨30, "c", "", some 7⟩], [⟨7, 1 / 2⟩], 8, []⟩
        10 [] [⟨30, "c", "", 9 / 10⟩]).1.files,
        (r.file_id = 10 ∨
          r.file_id ∈ ([⟨30, "c", "", 9 / 10⟩] : List SimilarFile).map
            SimilarFile.file_id) →
        r.cluster_id = some 7) := by
  have h2 := (C3_cluster_assignment
    ⟨[⟨10, "a", "", none⟩, ⟨30, "c", "", some 7⟩], [⟨7, 1 / 2⟩], 8, []⟩
    10 [] [⟨30, "c", "", 9 / 10⟩]).2.1 [] ⟨30, "c", "", 9 / 10⟩ [] 7
    rfl (by simp) (by decide)
  refine ⟨?_, h2, ?_⟩
  · exact (C3_cluster_assignment ⟨[⟨10, "a", "", none⟩], [], 1, []⟩ 10 [] []).1
      ⟨rfl, rfl⟩
  · exact (C3_cluster_assignment
      ⟨[⟨10, "a", "", none⟩, ⟨30, "c", "", some 7⟩], [⟨7, 1 / 2⟩], 8, []⟩
      10 [] [⟨30, "c", "", 9 / 10⟩]).2.2.2 7 h2

/-! ## C4 — sequential processing of identical contents -/

/-- C4 counterexample: two objects with identical contents under distinct
keys are processed sequentially with empty similar results. The second run
succeeds and its `cluster_id` is indeed none, but the exact duplicate is
*not* recorded: `exact_duplicates` is `[]`, not `[1]`, because the digest is
computed over the distinct object keys rather than the shared contents. -/
theorem C4_counterexample_exact_duplicate_not_recorded :
    objectBytes c4Store "k1" = objectBytes c4Store "k2"
    ∧ c4Run1.1.toOption.isSome = true
    ∧ c4Run2.1.toOption.isSome = true
    ∧ c4Res2.exact_duplicates = []
    ∧ c4Res2.exact_duplicates ≠ [1]
    ∧ c4Res2.cluster_id = none := by
  refine ⟨rfl, by decide, by decide, by decide, by decide, by decide⟩

/-- C4 (amended): when two files with identical contents but distinct object
keys (whose key digests differ and are non-empty) are processed sequentially
and both similar searches are empty, the second file's `cluster_id` stays
null and no cluster is created — but the exact duplicate is not recorded
either: `exact_duplicates` comes back empty, since the digest covers the key
and not the contents. -/
theorem C4_sequential_identical_contents (k1 k2 n1 n2 : String)
    (contents : List Nat) (t1 t2 : Nat)
    (hh : generateFileHash k1 ≠ generateFileHash k2)
    (hz1 : "" ≠ generateFileHash k1) :
    objectBytes [(k1, contents), (k2, contents)] k1
      = objectBytes [(k1, contents), (k2, contents)] k2
    ∧ (seqRun1 k1 n1 n2 t1).1
        = .ok ⟨1, generateFileHash k1, [], [], none⟩
    ∧ (seqRun2 k1 k2 n1 n2 t1 t2).1
        = .ok ⟨2, generateFileHash k2, [], [], none⟩
    ∧ ((seqRun2 k1 k2 n1 n2 t1 t2).2.db.files.map
        (fun r => (r.file_id, r.cluster_id))) = [(1, none), (2, none)] := by
  have hk : k1 ≠ k2 := fun h => hh (by rw [h])
  -- first run
  have h1 := performDeduplication_embed_ok (seqState0 n1 n2) 10 (seqJob1 k1 n1 t1)
    n1 0 [1] rfl (generateFileEmbeddings_ok _ _ _ _ rfl)
  have hex1 : findExactDuplicates (seqDb0 n1 n2) (generateFileHash k1) 1 = [] := by
    simp [findExactDuplicates, seqDb0, hz1]
  have hsim1 : findSimilarFiles [SearchResp.hits [], SearchResp.hits []] [1] 1 n1
      = ([], [SearchResp.hits []]) := rfl
  have hcl1 : updateFileClusters (seqDb0 n1 n2) 1 [] ([] : List SimilarFile)
      = (seqDb0 n1 n2, none) := rfl
  simp only [seqState0, seqJob1, hex1, hsim1, hcl1, List.tail_cons] at h1
  obtain ⟨hres1, hstate1⟩ := h1
  have hdb1 : updateFileHash (seqDb0 n1 n2) 1 (generateFileHash k1)
      = ⟨[⟨1, n1, generateFileHash k1, none⟩, ⟨2, n2, "", none⟩], [], 1, []⟩ := by
    simp [updateFileHash, seqDb0]
  rw [hdb1] at hstate1
  have hR1 : (seqRun1 k1 n1 n2 t1).2
      = { db := ⟨[⟨1, n1, generateFileHash k1, none⟩, ⟨2, n2, "", none⟩], [], 1, []⟩,
          os := storeEmbeddingsInOpensearch [] 1 n1 (generateFileHash k1) [1] 10,
          embedWorld := [.ok [1]],
          searchWorld := [.hits []] } := by
    simp only [seqRun1, seqState0, seqJob1]
    exact hstate1
  -- second run
  have hinfo2 : getFileInfo (seqRun1 k1 n1 n2 t1).2.db (seqJob2 k2 n2 t2).file_id
      = .ok (n2, 0) := by
    rw [hR1]; rfl
  have hv2 := generateFileEmbeddings_ok ((seqRun1 k1 n1 n2 t1).2.embedWorld)
    (seqJob2 k2 n2 t2).s3_key (seqJob2 k2 n2 t2).file_name [1] (by rw [hR1]; rfl)
  have h2 := performDeduplication_embed_ok ((seqRun1 k1 n1 n2 t1).2) 11
    (seqJob2 k2 n2 t2) n2 0 [1] hinfo2 hv2
  have hex2 : findExactDuplicates
      (⟨[⟨1, n1, generateFileHash k1, none⟩, ⟨2, n2, "", none⟩], [], 1, []⟩ : Db)
      (generateFileHash k2) 2 = [] := by
    simp [findExactDuplicates, hh]
  have hsim2 : findSimilarFiles [SearchResp.hits []] [1] 2 n2 = ([], []) := rfl
  have hcl2 : updateFileClusters
      (⟨[⟨1, n1, generateFileHash k1, none⟩, ⟨2, n2, "", none⟩], [], 1, []⟩ : Db)
      2 [] ([] : List SimilarFile)
      = ((⟨[⟨1, n1, generateFileHash k1, none⟩, ⟨2, n2, "", none⟩], [], 1, []⟩ : Db),
         none) := rfl
  simp only [seqJob2, hR1, hex2, hsim2, hcl2, List.tail_cons] at h2
  obtain ⟨hres2, hstate2⟩ := h2
  refine ⟨?_, ?_, ?_, ?_⟩
  · simp [objectBytes, hk]
  · simp only [seqRun1, seqState0, seqJob1]
    exact hres1
  · simp only [seqRun2, seqJob2, hR1]
    exact hres2
  · rw [show (seqRun2 k1 k2 n1 n2 t1 t2).2
        = (performDeduplication (seqRun1 k1 n1 n2 t1).2 11 (seqJob2 k2 n2 t2)).2
        from rfl]
    simp only [seqJob2, hR1] at hstate2 ⊢
    rw [hstate2]
    simp [updateFileHash]

/-- Witness for C4 on the concrete keys `k1`/`k2` with contents `[104, 105]`. -/
theorem C4_sequential_identical_contents_witness :
    (generateFileHash "k1" ≠ generateFileHash "k2")
    ∧ (seqRun2 "k1" "k2" "a.txt" "b.txt" 0 0).1
        = .ok ⟨2, generateFileHash "k2", [], [], none⟩
    ∧ ((seqRun2 "k1" "k2" "a.txt" "b.txt" 0 0).2.db.files.map
        (fun r => (r.file_id, r.cluster_id))) = [(1, none), (2, none)] := by
  have h := C4_sequential_identical_contents "k1" "k2" "a.txt" "b.txt"
    [104, 105] 0 0 (by decide) (by decide)
  exact ⟨by decide, h.2.2.1, h.2.2.2⟩

/-! ## C1 — terminal status never reaches the durable store -/

theorem updateFileClusters_jobs (db : Db) (fid : Int) (ex : List Int)
    (sim : List SimilarFile) : ((updateFileClusters db fid ex sim).1).jobs = db.jobs := by
  by_cases hcond : ex = [] ∧ sim = []
  · simp [updateFileClusters, hcond]
  · rcases hfc : firstExistingCluster db sim with _ | c3
    · simp only [updateFileClusters, if_neg hcond, hfc, insertCluster]
      exact (foldl_setFileCluster_meta sim db.nextClusterId _).2.2
    · simp only [updateFileClusters, if_neg hcond, hfc]
      exact (foldl_setFileCluster_meta sim c3 _).2.2

theorem performDeduplication_jobs (s : EngineState) (now : Nat)
    (job : DeduplicationJob) :
    ((performDeduplication s now job).2).db.jobs = s.db.jobs := by
  rcases hinfo : getFileInfo s.db job.file_id with e | p
  · simp [performDeduplication, hinfo]
  · rcases hgfe : generateFileEmbeddings s.embedWorld job.s3_key job.file_name
      with ⟨er, w1⟩
    cases er with
    | error e => simp [performDeduplication, hinfo, hgfe]
    | ok v =>
      rcases hfs : findSimilarFiles s.searchWorld v job.file_id job.file_name
        with ⟨sim, sw1⟩
      rcases hufc : updateFileClusters s.db job.file_id
          (findExactDuplicates s.db (generateFileHash job.s3_key) job.file_id) sim
        with ⟨db1, cid⟩
      have hjobs : db1.jobs = s.db.jobs := by
        have := updateFileClusters_jobs s.db job.file_id
          (findExactDuplicates s.db (generateFileHash job.s3_key) job.file_id) sim
        rw [hufc] at this
        exact this
      simp only [performDeduplication, hinfo, hgfe, hfs, hufc, updateFileHash]
      exact hjobs

theorem processDeduplicationJob_db (s : SysState) (job : DeduplicationJob) :
    ((processDeduplicationJob s job).2).db.jobs = s.db.jobs := by
  rcases hp : performDeduplication s.engine s.now job with ⟨res, e1⟩
  have h := performDeduplication_jobs s.engine s.now job
  rw [hp] at h
  cases res <;> simp only [processDeduplicationJob, hp] <;> exact h

theorem serviceUpdateJobStatus_db (s : SysState) (jid st : String)
    (err : Option String) : (serviceUpdateJobStatus s jid st err).db = s.db := by
  unfold serviceUpdateJobStatus
  rcases h : lookupStatus (updateJobStatus s.redis jid st err s.now).statusMap
    (statusKey jid) with _ | v <;> simp [h]

theorem workerStep_jobs (s : SysState) : (workerStep s).db.jobs = s.db.jobs := by
  rcases hd : dequeueJob s.redis s.now with ⟨o, r1⟩
  cases o with
  | none => simp [workerStep, hd]
  | some job =>
    simp only [workerStep, hd]
    have h1 := processDeduplicationJob_db
      (serviceUpdateJobStatus { s with redis := r1 } job.job_id "processing" none) job
    rw [serviceUpdateJobStatus_db] at h1
    exact h1

/-- C1 is violated by the worker path: a worker iteration never writes the
durable `jobs` table at all — the terminal status goes only to the transient
Redis map (`job_queue.update_job_status`), `update_job_status_in_db` has no
caller on this path, and no terminal broadcast is emitted. In the concrete
successful run the transient status reaches `completed` while the durable row
stays `pending` with null `completed_at`, and the only broadcast is the
`processing` one. -/
theorem C1_terminal_status_never_durable :
    (∀ s : SysState, (workerStep s).db.jobs = s.db.jobs)
    ∧ ((lookupStatus c1After.redis.statusMap (statusKey "j1")).map JobStatus.status
        = some "completed")
    ∧ (c1After.db.jobs.map (fun r => (r.status, r.completed_at))
        = [("pending", none)])
    ∧ (c1After.broadcasts.map (fun p => p.2.status) = ["processing"]) := by
  refine ⟨fun s => workerStep_jobs s, by decide, by decide, by decide⟩

end FileDedup
